import Mathlib

/-! Degraded-status check of the cluster monitoring operator.

A shallow embedding of `pkg/status/status.go`: the three functions `IsDegraded`,
`alertsFiring` and `getServiceAccountToken`, together with the small part of the
libraries they call that the source fixes (the behaviour of `errors.Wrap`,
`errors.New`, `errors.Errorf`, `strings.Contains` and Go map lookups).

Conventions of the embedding.

* A Go `string` and a Go `[]byte` are both a Lean `String`; the conversion
  `string(b)` keeps the content, and the zero value of either is `""`.
* A Go `error` is an `Option GoError`, `none` being `nil`.
* A Go map is an association list read with `List.lookup`; a missing key gives
  `none`, which is the `ok == false` of the two-valued lookup and the zero value of
  the one-valued lookup.
* The clients are records of the methods the source calls on them.  Each external
  call returns either a value or an error (`Except GoError`).
* A multi-valued Go result stays a tuple, so that a result which carries both a
  value and an error can be written down.
* The diagnostic `fmt.Println` calls do not influence any returned value and are
  left out.
-/

set_option autoImplicit false

namespace Status

/-! ## Errors (`github.com/pkg/errors`) -/

/-- Error values: one raised by an external collaborator, one made by
`errors.New` or `errors.Errorf`, or one made by `errors.Wrap` around a cause. -/
inductive GoError where
  | external (msg : String)
  | fundamental (msg : String)
  | withMessage (cause : GoError) (msg : String)
  deriving DecidableEq, Repr

/-- The `Error()` method: the message of the error; a wrapped error prints its
message, a colon and the message of the cause. -/
def GoError.Error : GoError → String
  | .external msg => msg
  | .fundamental msg => msg
  | .withMessage cause msg => msg ++ ": " ++ cause.Error

/-- The call `errors.New(message)`. -/
def errors.New (message : String) : Option GoError :=
  some (.fundamental message)

/-- The call `errors.Wrap(err, message)`: `nil` stays `nil`. -/
def errors.Wrap (err : Option GoError) (message : String) : Option GoError :=
  match err with
  | none => none
  | some e => some (.withMessage e message)

/-- The call `errors.Errorf("cannot find token for %s/%s service account", a, b)`
with the format of the source expanded. -/
def errors.Errorf_cannotFindToken (a b : String) : Option GoError :=
  some (.fundamental ("cannot find token for " ++ a ++ "/" ++ b ++ " service account"))

/-! ## Strings -/

/-- Substring search over the characters of the two strings. -/
def strings.containsChars : List Char → List Char → Bool
  | [], substr => substr.isEmpty
  | c :: cs, substr => substr.isPrefixOf (c :: cs) || strings.containsChars cs substr

/-- The call `strings.Contains(s, substr)`. -/
def strings.Contains (s substr : String) : Bool :=
  strings.containsChars s.data substr.data

/-! ## Cluster objects and clients -/

/-- The fields of a `v1.Secret` that the source reads. -/
structure Secret where
  Name : String
  Annotations : List (String × String)
  Data : List (String × String)
  deriving DecidableEq, Repr

/-- A `kubernetes.Clientset`: `CoreV1().Secrets(namespace).List(...)`. -/
structure KubeClient where
  ListSecrets : String → Except GoError (List Secret)

/-- The Prometheus client of the test framework: `PrometheusQuery(query)`. -/
structure PrometheusClient where
  PrometheusQuery : String → Except GoError String

/-- A parsed `gabs.Container`: `ArrayCountP(path)`, a Go `int`. -/
structure Container where
  ArrayCountP : String → Except GoError Int

/-- The external constructors that `alertsFiring` calls. -/
structure Env (Config RouteClient : Type) where
  routeNewForConfig : Config → Except GoError RouteClient
  kubernetesNewForConfig : Config → Except GoError KubeClient
  NewPrometheusClientFromRoute :
    RouteClient → String → String → String → Except GoError PrometheusClient
  ParseJSON : String → Except GoError Container

/-! ## The source functions -/

/-- The annotation key that marks the token of the internal registry. -/
def dockerAnnotationKey : String := "openshift.io/create-dockercfg-secrets"

/-- The query that `alertsFiring` sends. -/
def alertsQuery : String :=
  "ALERTS\x7bnamespace=\"openshift-monitoring\", severity=\"critical\"\x7d"

/-- The loop of `getServiceAccountToken` over `secrets.Items`, with the
statement after the loop as its exit. -/
def getServiceAccountToken.items (nspace name : String) :
    List Secret → String × Option GoError
  | [] => ("", errors.Errorf_cannotFindToken nspace name)
  | secret :: rest =>
    let dockerToken := (secret.Annotations.lookup dockerAnnotationKey).isSome
    let token := strings.Contains secret.Name (name ++ "-token-")
    if !dockerToken && token then
      ((secret.Data.lookup "token").getD "", none)
    else
      getServiceAccountToken.items nspace name rest

/-- The function `getServiceAccountToken(kubeClient, namespace, name)`. -/
def getServiceAccountToken (kubeClient : KubeClient) (nspace name : String) :
    String × Option GoError :=
  match kubeClient.ListSecrets nspace with
  | .error err => ("", some err)
  | .ok secrets => getServiceAccountToken.items nspace name secrets

section
variable {Config RouteClient : Type}

/-- The function `alertsFiring(config)`. -/
def alertsFiring (env : Env Config RouteClient) (config : Config) :
    Bool × String × Option GoError :=
  match env.routeNewForConfig config with
  | .error err =>
    (false, "OpenShiftRouteClientError",
      errors.Wrap (some err) "creating openshiftRouteClient failed")
  | .ok openshiftRouteClient =>
  match env.kubernetesNewForConfig config with
  | .error err =>
    (false, "KubeConfigError", errors.Wrap (some err) "creating kubeClient failed")
  | .ok kubeClient =>
  match getServiceAccountToken kubeClient "openshift-monitoring"
      "cluster-monitoring-operator" with
  | (_, some err) => (false, "ServiceAccountTokenMissing", some err)
  | (token, none) =>
  match env.NewPrometheusClientFromRoute openshiftRouteClient
      "openshift-monitoring" "thanos-querier" token with
  | .error err =>
    (false, "ThanosQuerierClientError",
      errors.Wrap (some err) "creating ThanosQuerierClient failed")
  | .ok thanosQuerierClient =>
  match thanosQuerierClient.PrometheusQuery alertsQuery with
  | .error err => (false, "ThanosQuerierQueryFailed", some err)
  | .ok body =>
  match env.ParseJSON body with
  | .error err => (false, "", some err)
  | .ok res =>
  match res.ArrayCountP "data.result" with
  | .error err => (false, "", some err)
  | .ok count =>
  if count > 0 then (true, "AlertsFiring", none) else (false, "", none)

/-- The function `IsDegraded(config)`. -/
def IsDegraded (env : Env Config RouteClient) (config : Config) :
    Bool × String × Option GoError :=
  match alertsFiring env config with
  | (firing, msg, err) =>
    if err ≠ none then
      (true, msg, errors.Wrap err "could not query for alerts firing")
    else if firing then
      (true, "MonitoringAlertsFiring",
        errors.New "alerts around monitoring stack are firing")
    else
      (false, "", none)

end

/-! ## The selection of the token secret -/

/-- The two-predicate filter in the words of the specification: the name of the
secret contains `<name>-token-`, and its annotations do not contain the docker
annotation key, whatever the value. -/
def IsTokenSecret (name : String) (secret : Secret) : Prop :=
  (∃ pre post, secret.Name.data = pre ++ (name ++ "-token-").data ++ post) ∧
    ∀ v, ¬ (dockerAnnotationKey, v) ∈ secret.Annotations

/-! ## Outcomes of the steps of `alertsFiring` -/

section
variable {Config RouteClient : Type}

/-- Some executed step of `alertsFiring` returns an error: the step named by the
constructor fails on the values that the steps before it returned. -/
inductive StepFailure (env : Env Config RouteClient) (config : Config) : Prop where
  | routeClient (err : GoError)
      (hroute : env.routeNewForConfig config = .error err)
  | kubeClient (rc : RouteClient) (err : GoError)
      (hroute : env.routeNewForConfig config = .ok rc)
      (hkube : env.kubernetesNewForConfig config = .error err)
  | tokenLookup (rc : RouteClient) (kc : KubeClient) (value : String) (err : GoError)
      (hroute : env.routeNewForConfig config = .ok rc)
      (hkube : env.kubernetesNewForConfig config = .ok kc)
      (htoken : getServiceAccountToken kc "openshift-monitoring"
        "cluster-monitoring-operator" = (value, some err))
  | thanosClient (rc : RouteClient) (kc : KubeClient) (token : String) (err : GoError)
      (hroute : env.routeNewForConfig config = .ok rc)
      (hkube : env.kubernetesNewForConfig config = .ok kc)
      (htoken : getServiceAccountToken kc "openshift-monitoring"
        "cluster-monitoring-operator" = (token, none))
      (hthanos : env.NewPrometheusClientFromRoute rc "openshift-monitoring"
        "thanos-querier" token = .error err)
  | query (rc : RouteClient) (kc : KubeClient) (token : String) (pc : PrometheusClient)
      (err : GoError)
      (hroute : env.routeNewForConfig config = .ok rc)
      (hkube : env.kubernetesNewForConfig config = .ok kc)
      (htoken : getServiceAccountToken kc "openshift-monitoring"
        "cluster-monitoring-operator" = (token, none))
      (hthanos : env.NewPrometheusClientFromRoute rc "openshift-monitoring"
        "thanos-querier" token = .ok pc)
      (hquery : pc.PrometheusQuery alertsQuery = .error err)
  | parse (rc : RouteClient) (kc : KubeClient) (token : String) (pc : PrometheusClient)
      (body : String) (err : GoError)
      (hroute : env.routeNewForConfig config = .ok rc)
      (hkube : env.kubernetesNewForConfig config = .ok kc)
      (htoken : getServiceAccountToken kc "openshift-monitoring"
        "cluster-monitoring-operator" = (token, none))
      (hthanos : env.NewPrometheusClientFromRoute rc "openshift-monitoring"
        "thanos-querier" token = .ok pc)
      (hquery : pc.PrometheusQuery alertsQuery = .ok body)
      (hparse : env.ParseJSON body = .error err)
  | arrayCount (rc : RouteClient) (kc : KubeClient) (token : String)
      (pc : PrometheusClient) (body : String) (res : Container) (err : GoError)
      (hroute : env.routeNewForConfig config = .ok rc)
      (hkube : env.kubernetesNewForConfig config = .ok kc)
      (htoken : getServiceAccountToken kc "openshift-monitoring"
        "cluster-monitoring-operator" = (token, none))
      (hthanos : env.NewPrometheusClientFromRoute rc "openshift-monitoring"
        "thanos-querier" token = .ok pc)
      (hquery : pc.PrometheusQuery alertsQuery = .ok body)
      (hparse : env.ParseJSON body = .ok res)
      (hcount : res.ArrayCountP "data.result" = .error err)

/-- Every step of `alertsFiring` succeeds and the `data.result` array of the
response has `N` entries. -/
def AllStepsSucceed (env : Env Config RouteClient) (config : Config) (N : Int) : Prop :=
  ∃ (rc : RouteClient) (kc : KubeClient) (token : String) (pc : PrometheusClient)
    (body : String) (res : Container),
    env.routeNewForConfig config = .ok rc ∧
    env.kubernetesNewForConfig config = .ok kc ∧
    getServiceAccountToken kc "openshift-monitoring" "cluster-monitoring-operator" =
      (token, none) ∧
    env.NewPrometheusClientFromRoute rc "openshift-monitoring" "thanos-querier" token =
      .ok pc ∧
    pc.PrometheusQuery alertsQuery = .ok body ∧
    env.ParseJSON body = .ok res ∧
    res.ArrayCountP "data.result" = .ok N

end

/-! ## Sample clusters -/

/-- The token secret of the operator's service account. -/
def secretAbc : Secret :=
  ⟨"cluster-monitoring-operator-token-abc", [], [("token", "tok-abc")]⟩

/-- The token secret for the internal registry: it carries the docker annotation. -/
def secretXyz : Secret :=
  ⟨"cluster-monitoring-operator-token-xyz", [(dockerAnnotationKey, "true")],
    [("token", "tok-xyz")]⟩

/-- A secret with the right name and no docker annotation, whose data has no
`token` entry. -/
def secretBare : Secret :=
  ⟨"cluster-monitoring-operator-token-new", [], [("ca.crt", "pem")]⟩

/-- A secret of another service account. -/
def secretOther : Secret :=
  ⟨"prometheus-k8s-token-q7", [], [("token", "tok-prom")]⟩

/-- A cluster client whose secret store holds `secrets` in every namespace. -/
def sampleKube (secrets : List Secret) : KubeClient :=
  ⟨fun _ => .ok secrets⟩

/-- A response with an empty result array. -/
def emptyResultBody : String := "\x7b\"data\":\x7b\"result\":[]\x7d\x7d"

/-- A response with one entry in the result array. -/
def oneResultBody : String :=
  "\x7b\"data\":\x7b\"result\":[\x7b\"metric\":\x7b\x7d\x7d]\x7d\x7d"

/-- A response with two entries in the result array. -/
def twoResultBody : String :=
  "\x7b\"data\":\x7b\"result\":[\x7b\"metric\":\x7b\x7d\x7d,\x7b\"metric\":\x7b\x7d\x7d]\x7d\x7d"

/-- A well-formed response without a `data.result` array. -/
def statusOnlyBody : String := "\x7b\"status\":\"error\"\x7d"

/-- A parsed document in which only `data.result` is an array, of length `n`. -/
def resultArrayOfLength (n : Int) : Container :=
  ⟨fun path => if path = "data.result" then .ok n else .error (.external "not an array")⟩

/-- A parsed document without any array. -/
def noArray : Container :=
  ⟨fun _ => .error (.external "not an array")⟩

/-- The JSON library on the sample responses; every other body is rejected. -/
def sampleParseJSON (body : String) : Except GoError Container :=
  if body = emptyResultBody then .ok (resultArrayOfLength 0)
  else if body = oneResultBody then .ok (resultArrayOfLength 1)
  else if body = twoResultBody then .ok (resultArrayOfLength 2)
  else if body = statusOnlyBody then .ok noArray
  else .error (.external "invalid character")

/-- The query client that answers every query with `response`. -/
def sampleQuerier (response : Except GoError String) : PrometheusClient :=
  ⟨fun _ => response⟩

/-- A cluster in which the client constructions fail with the given errors, if
any, the secret store holds `secrets` and the query service answers `response`. -/
def sampleEnv (route kube thanos : Option GoError) (secrets : List Secret)
    (response : Except GoError String) : Env Unit Unit where
  routeNewForConfig := fun _ =>
    match route with
    | none => .ok ()
    | some err => .error err
  kubernetesNewForConfig := fun _ =>
    match kube with
    | none => .ok (sampleKube secrets)
    | some err => .error err
  NewPrometheusClientFromRoute := fun _ _ _ _ =>
    match thanos with
    | none => .ok (sampleQuerier response)
    | some err => .error err
  ParseJSON := sampleParseJSON

/-! ## Properties of the library models -/

theorem strings.containsChars_iff (s substr : List Char) :
    strings.containsChars s substr = true ↔ ∃ pre post, s = pre ++ substr ++ post := by
  induction s with
  | nil =>
    constructor
    · intro h
      have hs : substr = [] := by simpa [strings.containsChars] using h
      exact ⟨[], [], by simp [hs]⟩
    · rintro ⟨pre, post, h⟩
      have hs : substr = [] := by
        have := congrArg List.length h
        simp at this
        exact List.length_eq_zero.mp (by omega)
      simp [strings.containsChars, hs]
  | cons c cs ih =>
    constructor
    · intro h
      simp only [strings.containsChars, Bool.or_eq_true] at h
      rcases h with h | h
      · obtain ⟨t, ht⟩ := List.isPrefixOf_iff_prefix.mp h
        exact ⟨[], t, by simp [ht]⟩
      · obtain ⟨pre, post, hp⟩ := ih.mp h
        exact ⟨c :: pre, post, by simp [hp]⟩
    · rintro ⟨pre, post, h⟩
      simp only [strings.containsChars, Bool.or_eq_true]
      cases pre with
      | nil =>
        left
        exact List.isPrefixOf_iff_prefix.mpr ⟨post, by simp [h]⟩
      | cons p pre =>
        right
        refine ih.mpr ⟨pre, post, ?_⟩
        simp at h
        simp [h.2]

theorem lookup_isSome_iff (k : String) (l : List (String × String)) :
    (l.lookup k).isSome = true ↔ ∃ v, (k, v) ∈ l := by
  induction l with
  | nil => simp
  | cons kv rest ih =>
    obtain ⟨a, b⟩ := kv
    by_cases hk : k = a
    · subst hk
      simp [List.lookup]
    · have hne : (k == a) = false := by simpa using hk
      simp only [List.lookup, hne, ih]
      constructor
      · rintro ⟨v, hv⟩
        exact ⟨v, List.mem_cons_of_mem _ hv⟩
      · rintro ⟨v, hv⟩
        rcases List.mem_cons.mp hv with h | h
        · exact absurd (congrArg Prod.fst h) hk
        · exact ⟨v, h⟩

theorem selected_iff (name : String) (secret : Secret) :
    (!(secret.Annotations.lookup dockerAnnotationKey).isSome &&
        strings.Contains secret.Name (name ++ "-token-")) = true ↔
      IsTokenSecret name secret := by
  unfold IsTokenSecret strings.Contains
  rw [Bool.and_eq_true, strings.containsChars_iff, Bool.not_eq_true', ← Bool.not_eq_true,
    lookup_isSome_iff]
  constructor
  · rintro ⟨h1, h2⟩
    exact ⟨h2, fun v hv => h1 ⟨v, hv⟩⟩
  · rintro ⟨h1, h2⟩
    exact ⟨fun ⟨v, hv⟩ => h2 v hv, h1⟩

theorem items_cons_selected (nspace name : String) (secret : Secret) (rest : List Secret)
    (h : IsTokenSecret name secret) :
    getServiceAccountToken.items nspace name (secret :: rest) =
      ((secret.Data.lookup "token").getD "", none) := by
  have hc := (selected_iff name secret).mpr h
  simp only [getServiceAccountToken.items, hc, if_true]

theorem items_cons_skipped (nspace name : String) (secret : Secret) (rest : List Secret)
    (h : ¬ IsTokenSecret name secret) :
    getServiceAccountToken.items nspace name (secret :: rest) =
      getServiceAccountToken.items nspace name rest := by
  have hc : (!(secret.Annotations.lookup dockerAnnotationKey).isSome &&
      strings.Contains secret.Name (name ++ "-token-")) = false :=
    Bool.eq_false_iff.mpr (fun hc => h ((selected_iff name secret).mp hc))
  simp only [getServiceAccountToken.items, hc, Bool.false_eq_true, if_false]

theorem items_first_match (nspace name : String) (pre post : List Secret) (secret : Secret)
    (hpre : ∀ x ∈ pre, ¬ IsTokenSecret name x) (hs : IsTokenSecret name secret) :
    getServiceAccountToken.items nspace name (pre ++ secret :: post) =
      ((secret.Data.lookup "token").getD "", none) := by
  induction pre with
  | nil => exact items_cons_selected nspace name secret post hs
  | cons x pre ih =>
    rw [List.cons_append, items_cons_skipped nspace name x _ (hpre x (List.mem_cons_self _ _))]
    exact ih (fun y hy => hpre y (List.mem_cons_of_mem _ hy))

theorem items_no_match (nspace name : String) (secrets : List Secret)
    (h : ∀ x ∈ secrets, ¬ IsTokenSecret name x) :
    getServiceAccountToken.items nspace name secrets =
      ("", errors.Errorf_cannotFindToken nspace name) := by
  induction secrets with
  | nil => rfl
  | cons x rest ih =>
    rw [items_cons_skipped nspace name x rest (h x (List.mem_cons_self _ _))]
    exact ih (fun y hy => h y (List.mem_cons_of_mem _ hy))

theorem items_split (name : String) (secrets : List Secret) :
    (∀ x ∈ secrets, ¬ IsTokenSecret name x) ∨
      ∃ pre secret post, secrets = pre ++ secret :: post ∧
        (∀ x ∈ pre, ¬ IsTokenSecret name x) ∧ IsTokenSecret name secret := by
  induction secrets with
  | nil => left; simp
  | cons x rest ih =>
    by_cases hx : IsTokenSecret name x
    · right
      exact ⟨[], x, rest, rfl, by simp, hx⟩
    · rcases ih with h | ⟨pre, secret, post, hl, hpre, hs⟩
      · left
        intro y hy
        rcases List.mem_cons.mp hy with rfl | hy
        · exact hx
        · exact h y hy
      · right
        refine ⟨x :: pre, secret, post, by simp [hl], ?_, hs⟩
        intro y hy
        rcases List.mem_cons.mp hy with rfl | hy
        · exact hx
        · exact hpre y hy

theorem lookup_eq_none_of_absent (k : String) (l : List (String × String))
    (h : ∀ v, ¬ (k, v) ∈ l) : l.lookup k = none := by
  cases hl : l.lookup k with
  | none => rfl
  | some v =>
    have hsome : (l.lookup k).isSome = true := by simp [hl]
    obtain ⟨w, hw⟩ := (lookup_isSome_iff k l).mp hsome
    exact absurd hw (h w)

/-! ## What `alertsFiring` returns -/

section
variable {Config RouteClient : Type}

theorem alertsFiring_of_failure (env : Env Config RouteClient) (config : Config)
    (h : StepFailure env config) :
    ∃ (msg : String) (err : GoError), alertsFiring env config = (false, msg, some err) ∧
      msg ∈ ["OpenShiftRouteClientError", "KubeConfigError", "ServiceAccountTokenMissing",
        "ThanosQuerierClientError", "ThanosQuerierQueryFailed", ""] := by
  cases h with
  | routeClient err hroute =>
    refine ⟨"OpenShiftRouteClientError",
      .withMessage err "creating openshiftRouteClient failed", ?_, by simp⟩
    simp only [alertsFiring, hroute, errors.Wrap]
  | kubeClient rc err hroute hkube =>
    refine ⟨"KubeConfigError", .withMessage err "creating kubeClient failed", ?_, by simp⟩
    simp only [alertsFiring, hroute, hkube, errors.Wrap]
  | tokenLookup rc kc value err hroute hkube htoken =>
    refine ⟨"ServiceAccountTokenMissing", err, ?_, by simp⟩
    simp only [alertsFiring, hroute, hkube, htoken]
  | thanosClient rc kc token err hroute hkube htoken hthanos =>
    refine ⟨"ThanosQuerierClientError",
      .withMessage err "creating ThanosQuerierClient failed", ?_, by simp⟩
    simp only [alertsFiring, hroute, hkube, htoken, hthanos, errors.Wrap]
  | query rc kc token pc err hroute hkube htoken hthanos hquery =>
    refine ⟨"ThanosQuerierQueryFailed", err, ?_, by simp⟩
    simp only [alertsFiring, hroute, hkube, htoken, hthanos, hquery]
  | parse rc kc token pc body err hroute hkube htoken hthanos hquery hparse =>
    refine ⟨"", err, ?_, by simp⟩
    simp only [alertsFiring, hroute, hkube, htoken, hthanos, hquery, hparse]
  | arrayCount rc kc token pc body res err hroute hkube htoken hthanos hquery hparse hcount =>
    refine ⟨"", err, ?_, by simp⟩
    simp only [alertsFiring, hroute, hkube, htoken, hthanos, hquery, hparse, hcount]

theorem alertsFiring_of_success (env : Env Config RouteClient) (config : Config) (N : Int)
    (h : AllStepsSucceed env config N) :
    alertsFiring env config =
      if N > 0 then (true, "AlertsFiring", none) else (false, "", none) := by
  obtain ⟨rc, kc, token, pc, body, res, hroute, hkube, htoken, hthanos, hquery, hparse,
    hcount⟩ := h
  simp [alertsFiring, hroute, hkube, htoken, hthanos, hquery, hparse, hcount]

/-- The steps either all succeed with some count, or one of them fails. -/
theorem failure_or_success (env : Env Config RouteClient) (config : Config) :
    StepFailure env config ∨ ∃ N, AllStepsSucceed env config N := by
  cases hroute : env.routeNewForConfig config with
  | error err => exact Or.inl (.routeClient err hroute)
  | ok rc =>
  cases hkube : env.kubernetesNewForConfig config with
  | error err => exact Or.inl (.kubeClient rc err hroute hkube)
  | ok kc =>
  rcases htoken : getServiceAccountToken kc "openshift-monitoring"
    "cluster-monitoring-operator" with ⟨token, _ | err⟩
  swap
  · exact Or.inl (.tokenLookup rc kc token err hroute hkube htoken)
  cases hthanos : env.NewPrometheusClientFromRoute rc "openshift-monitoring"
    "thanos-querier" token with
  | error err => exact Or.inl (.thanosClient rc kc token err hroute hkube htoken hthanos)
  | ok pc =>
  cases hquery : pc.PrometheusQuery alertsQuery with
  | error err => exact Or.inl (.query rc kc token pc err hroute hkube htoken hthanos hquery)
  | ok body =>
  cases hparse : env.ParseJSON body with
  | error err =>
    exact Or.inl (.parse rc kc token pc body err hroute hkube htoken hthanos hquery hparse)
  | ok res =>
  cases hcount : res.ArrayCountP "data.result" with
  | error err =>
    exact Or.inl
      (.arrayCount rc kc token pc body res err hroute hkube htoken hthanos hquery hparse
        hcount)
  | ok N =>
    exact Or.inr ⟨N, rc, kc, token, pc, body, res, hroute, hkube, htoken, hthanos, hquery,
      hparse, hcount⟩

end


/-! ## What `IsDegraded` returns -/

section
variable {Config RouteClient : Type}

theorem IsDegraded_of_error (env : Env Config RouteClient) (config : Config)
    (firing : Bool) (msg : String) (err : GoError)
    (h : alertsFiring env config = (firing, msg, some err)) :
    IsDegraded env config =
      (true, msg, some (.withMessage err "could not query for alerts firing")) := by
  simp [IsDegraded, h, errors.Wrap]

theorem IsDegraded_of_success (env : Env Config RouteClient) (config : Config) (N : Int)
    (h : AllStepsSucceed env config N) :
    IsDegraded env config =
      if N > 0 then
        (true, "MonitoringAlertsFiring",
          some (.fundamental "alerts around monitoring stack are firing"))
      else (false, "", none) := by
  have hf := alertsFiring_of_success env config N h
  by_cases hN : N > 0
  · rw [if_pos hN] at hf
    simp [IsDegraded, hf, hN, errors.New]
  · rw [if_neg hN] at hf
    simp [IsDegraded, hf, hN]

end

theorem isTokenSecret_secretAbc : IsTokenSecret "cluster-monitoring-operator" secretAbc :=
  (selected_iff _ _).mp (by decide)

theorem not_isTokenSecret_secretXyz :
    ¬ IsTokenSecret "cluster-monitoring-operator" secretXyz :=
  fun h => absurd ((selected_iff _ _).mpr h) (by decide)

theorem isTokenSecret_secretBare : IsTokenSecret "cluster-monitoring-operator" secretBare :=
  (selected_iff _ _).mp (by decide)

theorem not_isTokenSecret_secretOther :
    ¬ IsTokenSecret "cluster-monitoring-operator" secretOther :=
  fun h => absurd ((selected_iff _ _).mpr h) (by decide)

theorem allStepsSucceed_sample (body : String) (n : Int)
    (hparse : sampleParseJSON body = .ok (resultArrayOfLength n)) :
    AllStepsSucceed (sampleEnv none none none [secretAbc] (.ok body)) () n :=
  ⟨(), sampleKube [secretAbc], "tok-abc", sampleQuerier (.ok body), body,
    resultArrayOfLength n, rfl, rfl, by decide, rfl, rfl, hparse, rfl⟩

/-! ## Credential lookup -/

/-- C5: when the store returns a list of secrets, `getServiceAccountToken` returns
the `token` data value of the first secret in list order whose name contains
`<name>-token-` and whose annotations lack the docker annotation key, with a nil
error; the secrets before it, which fail one of the two predicates, are ignored,
and so is everything after it. -/
theorem getServiceAccountToken_first_match (kubeClient : KubeClient)
    (nspace name : String) (pre post : List Secret) (secret : Secret)
    (hlist : kubeClient.ListSecrets nspace = .ok (pre ++ secret :: post))
    (hpre : ∀ x ∈ pre, ¬ IsTokenSecret name x)
    (hsecret : IsTokenSecret name secret) :
    getServiceAccountToken kubeClient nspace name =
      ((secret.Data.lookup "token").getD "", none) := by
  simp only [getServiceAccountToken, hlist]
  exact items_first_match nspace name pre post secret hpre hsecret

/-- The example of C5: with the secrets `...-token-abc` (not annotated) and
`...-token-xyz` (annotated), in either order, the token of `abc` is returned. -/
theorem getServiceAccountToken_first_match_witness :
    getServiceAccountToken (sampleKube [secretAbc, secretXyz]) "openshift-monitoring"
        "cluster-monitoring-operator" = ("tok-abc", none) ∧
      getServiceAccountToken (sampleKube [secretXyz, secretAbc]) "openshift-monitoring"
        "cluster-monitoring-operator" = ("tok-abc", none) :=
  ⟨getServiceAccountToken_first_match (sampleKube [secretAbc, secretXyz])
      "openshift-monitoring" "cluster-monitoring-operator" [] [secretXyz] secretAbc rfl
      (fun _ hx => absurd hx (List.not_mem_nil _)) isTokenSecret_secretAbc,
    getServiceAccountToken_first_match (sampleKube [secretXyz, secretAbc])
      "openshift-monitoring" "cluster-monitoring-operator" [secretXyz] [] secretAbc rfl
      (fun x hx => by
        rw [List.mem_singleton.mp hx]
        exact not_isTokenSecret_secretXyz)
      isTokenSecret_secretAbc⟩

/-- C6: when the secret listing succeeds, `getServiceAccountToken` returns an error
exactly when no secret of the list has a name containing `<name>-token-` while
lacking the docker annotation key; every error it then returns comes with the
token `""` and has the message
`cannot find token for <namespace>/<name> service account`. -/
theorem getServiceAccountToken_error_iff (kubeClient : KubeClient)
    (nspace name : String) (secrets : List Secret)
    (hlist : kubeClient.ListSecrets nspace = .ok secrets) :
    ((getServiceAccountToken kubeClient nspace name).2 ≠ none ↔
        ∀ x ∈ secrets, ¬ IsTokenSecret name x) ∧
      ∀ err, (getServiceAccountToken kubeClient nspace name).2 = some err →
        (getServiceAccountToken kubeClient nspace name).1 = "" ∧
          err.Error = "cannot find token for " ++ nspace ++ "/" ++ name ++
            " service account" := by
  simp only [getServiceAccountToken, hlist]
  rcases items_split name secrets with hnone | ⟨pre, secret, post, hl, hpre, hs⟩
  · rw [items_no_match nspace name secrets hnone]
    refine ⟨⟨fun _ => hnone, fun _ => by simp [errors.Errorf_cannotFindToken]⟩, ?_⟩
    intro err herr
    simp only [errors.Errorf_cannotFindToken, Option.some.injEq] at herr
    subst herr
    exact ⟨rfl, rfl⟩
  · subst hl
    rw [items_first_match nspace name pre post secret hpre hs]
    refine ⟨⟨fun h => absurd rfl h, fun h => ?_⟩, fun err herr => by simp at herr⟩
    exact absurd hs (h secret (by simp))

/-- A store that holds only the annotated secret and a foreign one: the lookup
fails with the message that names the namespace and the service account. -/
theorem getServiceAccountToken_error_iff_witness :
    (sampleKube [secretXyz, secretOther]).ListSecrets "openshift-monitoring" =
        .ok [secretXyz, secretOther] ∧
      (getServiceAccountToken (sampleKube [secretXyz, secretOther]) "openshift-monitoring"
        "cluster-monitoring-operator").1 = "" ∧
      ∃ err, (getServiceAccountToken (sampleKube [secretXyz, secretOther])
          "openshift-monitoring" "cluster-monitoring-operator").2 = some err ∧
        err.Error =
          "cannot find token for openshift-monitoring/cluster-monitoring-operator service account" := by
  have h := getServiceAccountToken_error_iff (sampleKube [secretXyz, secretOther])
    "openshift-monitoring" "cluster-monitoring-operator" [secretXyz, secretOther] rfl
  have hne := h.1.mpr (fun x hx => by
    rcases List.mem_cons.mp hx with rfl | hx
    · exact not_isTokenSecret_secretXyz
    · rw [List.mem_singleton.mp hx]
      exact not_isTokenSecret_secretOther)
  obtain ⟨err, herr⟩ := Option.ne_none_iff_exists'.mp hne
  have h2 := h.2 err herr
  exact ⟨rfl, h2.1, err, herr, by rw [h2.2]; decide⟩

/-- C10: when the first secret that passes the name and annotation filter has no
`token` entry in its data, `getServiceAccountToken` returns the empty string with a
nil error, whatever follows that secret in the list. -/
theorem getServiceAccountToken_empty_token (kubeClient : KubeClient)
    (nspace name : String) (pre post : List Secret) (secret : Secret)
    (hlist : kubeClient.ListSecrets nspace = .ok (pre ++ secret :: post))
    (hpre : ∀ x ∈ pre, ¬ IsTokenSecret name x)
    (hsecret : IsTokenSecret name secret)
    (hdata : ∀ v, ¬ ("token", v) ∈ secret.Data) :
    getServiceAccountToken kubeClient nspace name = ("", none) := by
  simp only [getServiceAccountToken, hlist]
  rw [items_first_match nspace name pre post secret hpre hsecret,
    lookup_eq_none_of_absent "token" secret.Data hdata]
  rfl

/-- Such a list exists: the secret without a `token` entry comes first and a
matching secret that does hold a token comes after it. -/
theorem getServiceAccountToken_empty_token_witness :
    ∃ secrets : List Secret,
      (∃ x ∈ secrets, IsTokenSecret "cluster-monitoring-operator" x ∧
        x.Data.lookup "token" = some "tok-abc") ∧
      getServiceAccountToken (sampleKube secrets) "openshift-monitoring"
        "cluster-monitoring-operator" = ("", none) :=
  ⟨[secretXyz, secretBare, secretAbc],
    ⟨secretAbc, by simp, isTokenSecret_secretAbc, rfl⟩,
    getServiceAccountToken_empty_token (sampleKube [secretXyz, secretBare, secretAbc])
      "openshift-monitoring" "cluster-monitoring-operator" [secretXyz] [secretAbc]
      secretBare rfl
      (fun x hx => by
        rw [List.mem_singleton.mp hx]
        exact not_isTokenSecret_secretXyz)
      isTokenSecret_secretBare
      (fun v hv => by simp [secretBare] at hv)⟩


/-! ## The degraded status -/

section
variable {Config RouteClient : Type}

/-- C1: fail-safe.  Whenever some executed step of the check returns an error (the
construction of the route client or of the cluster client, the token lookup, the
construction of the Thanos client, the query, the JSON parse or the count of the
`data.result` array), `IsDegraded` returns `isDegraded = true` together with a
non-nil error. -/
theorem IsDegraded_failsafe (env : Env Config RouteClient) (config : Config)
    (h : StepFailure env config) :
    (IsDegraded env config).1 = true ∧ (IsDegraded env config).2.2 ≠ none := by
  obtain ⟨msg, err, hf, _⟩ := alertsFiring_of_failure env config h
  rw [IsDegraded_of_error env config false msg err hf]
  exact ⟨rfl, by simp⟩

/-- C2, as amended: when all steps succeed and the `data.result` array has `N > 0`
entries, `IsDegraded` returns `isDegraded = true`, the reason
`MonitoringAlertsFiring` and the error `alerts around monitoring stack are firing`;
the triple does not depend on `N`. -/
theorem IsDegraded_alerts_firing (env : Env Config RouteClient) (config : Config)
    (N : Int) (hN : N > 0) (h : AllStepsSucceed env config N) :
    IsDegraded env config =
      (true, "MonitoringAlertsFiring",
        some (.fundamental "alerts around monitoring stack are firing")) := by
  rw [IsDegraded_of_success env config N h, if_pos hN]

/-- C4: when all steps succeed and the `data.result` array has zero entries,
`IsDegraded` returns exactly `(false, "", nil)`. -/
theorem IsDegraded_healthy (env : Env Config RouteClient) (config : Config)
    (h : AllStepsSucceed env config 0) :
    IsDegraded env config = (false, "", none) := by
  rw [IsDegraded_of_success env config 0 h]
  simp

/-- C7: the reason code names the first failing stage.  A failing route client
construction gives `OpenShiftRouteClientError`; after it, a failing cluster client
construction gives `KubeConfigError`; after both, a failing token lookup gives
`ServiceAccountTokenMissing`; after the lookup, a failing Thanos client
construction gives `ThanosQuerierClientError`; and once the client is built, a
failing query gives `ThanosQuerierQueryFailed`.  Each time `isDegraded` is true. -/
theorem IsDegraded_reason_of_first_failure (env : Env Config RouteClient)
    (config : Config) :
    (∀ err, env.routeNewForConfig config = .error err →
      (IsDegraded env config).1 = true ∧
        (IsDegraded env config).2.1 = "OpenShiftRouteClientError") ∧
    (∀ rc err, env.routeNewForConfig config = .ok rc →
      env.kubernetesNewForConfig config = .error err →
      (IsDegraded env config).1 = true ∧
        (IsDegraded env config).2.1 = "KubeConfigError") ∧
    (∀ rc kc value err, env.routeNewForConfig config = .ok rc →
      env.kubernetesNewForConfig config = .ok kc →
      getServiceAccountToken kc "openshift-monitoring" "cluster-monitoring-operator" =
        (value, some err) →
      (IsDegraded env config).1 = true ∧
        (IsDegraded env config).2.1 = "ServiceAccountTokenMissing") ∧
    (∀ rc kc token err, env.routeNewForConfig config = .ok rc →
      env.kubernetesNewForConfig config = .ok kc →
      getServiceAccountToken kc "openshift-monitoring" "cluster-monitoring-operator" =
        (token, none) →
      env.NewPrometheusClientFromRoute rc "openshift-monitoring" "thanos-querier" token =
        .error err →
      (IsDegraded env config).1 = true ∧
        (IsDegraded env config).2.1 = "ThanosQuerierClientError") ∧
    (∀ rc kc token pc err, env.routeNewForConfig config = .ok rc →
      env.kubernetesNewForConfig config = .ok kc →
      getServiceAccountToken kc "openshift-monitoring" "cluster-monitoring-operator" =
        (token, none) →
      env.NewPrometheusClientFromRoute rc "openshift-monitoring" "thanos-querier" token =
        .ok pc →
      pc.PrometheusQuery alertsQuery = .error err →
      (IsDegraded env config).1 = true ∧
        (IsDegraded env config).2.1 = "ThanosQuerierQueryFailed") := by
  refine ⟨?_, ?_, ?_, ?_, ?_⟩
  · intro err hroute
    rw [IsDegraded_of_error env config false "OpenShiftRouteClientError"
      (.withMessage err "creating openshiftRouteClient failed")
      (by simp only [alertsFiring, hroute, errors.Wrap])]
    exact ⟨rfl, rfl⟩
  · intro rc err hroute hkube
    rw [IsDegraded_of_error env config false "KubeConfigError"
      (.withMessage err "creating kubeClient failed")
      (by simp only [alertsFiring, hroute, hkube, errors.Wrap])]
    exact ⟨rfl, rfl⟩
  · intro rc kc value err hroute hkube htoken
    rw [IsDegraded_of_error env config false "ServiceAccountTokenMissing" err
      (by simp only [alertsFiring, hroute, hkube, htoken])]
    exact ⟨rfl, rfl⟩
  · intro rc kc token err hroute hkube htoken hthanos
    rw [IsDegraded_of_error env config false "ThanosQuerierClientError"
      (.withMessage err "creating ThanosQuerierClient failed")
      (by simp only [alertsFiring, hroute, hkube, htoken, hthanos, errors.Wrap])]
    exact ⟨rfl, rfl⟩
  · intro rc kc token pc err hroute hkube htoken hthanos hquery
    rw [IsDegraded_of_error env config false "ThanosQuerierQueryFailed" err
      (by simp only [alertsFiring, hroute, hkube, htoken, hthanos, hquery])]
    exact ⟨rfl, rfl⟩

/-- C8: the reason code returned by `IsDegraded` is always one of `""`,
`MonitoringAlertsFiring`, `OpenShiftRouteClientError`, `KubeConfigError`,
`ServiceAccountTokenMissing`, `ThanosQuerierClientError` and
`ThanosQuerierQueryFailed`; the internal code `AlertsFiring` of `alertsFiring`
never reaches the caller. -/
theorem IsDegraded_reason_enumerated (env : Env Config RouteClient) (config : Config) :
    (IsDegraded env config).2.1 ∈
        ["", "MonitoringAlertsFiring", "OpenShiftRouteClientError", "KubeConfigError",
          "ServiceAccountTokenMissing", "ThanosQuerierClientError",
          "ThanosQuerierQueryFailed"] ∧
      (IsDegraded env config).2.1 ≠ "AlertsFiring" := by
  rcases failure_or_success env config with hfail | ⟨N, hok⟩
  · obtain ⟨msg, err, hf, hmem⟩ := alertsFiring_of_failure env config hfail
    rw [IsDegraded_of_error env config false msg err hf]
    simp only [List.mem_cons, List.mem_singleton, List.not_mem_nil, or_false] at hmem
    rcases hmem with rfl | rfl | rfl | rfl | rfl | rfl <;>
      exact ⟨by simp, by simp⟩
  · rw [IsDegraded_of_success env config N hok]
    by_cases hN : N > 0
    · rw [if_pos hN]
      exact ⟨by simp, by decide⟩
    · rw [if_neg hN]
      exact ⟨by simp, by decide⟩

/-- C9: in every result of `IsDegraded`, `isDegraded` is true exactly when the
error is non-nil. -/
theorem IsDegraded_degraded_iff_error (env : Env Config RouteClient) (config : Config) :
    (IsDegraded env config).1 = true ↔ (IsDegraded env config).2.2 ≠ none := by
  rcases failure_or_success env config with hfail | ⟨N, hok⟩
  · obtain ⟨msg, err, hf, _⟩ := alertsFiring_of_failure env config hfail
    rw [IsDegraded_of_error env config false msg err hf]
    simp
  · rw [IsDegraded_of_success env config N hok]
    by_cases hN : N > 0
    · rw [if_pos hN]
      simp
    · rw [if_neg hN]
      simp

end


/-! ## The degraded status on the sample clusters -/

/-- A response without a `data.result` array makes the last step fail, and the
check reports degraded with an error. -/
theorem IsDegraded_failsafe_witness :
    StepFailure (sampleEnv none none none [secretAbc] (.ok statusOnlyBody)) () ∧
      (IsDegraded (sampleEnv none none none [secretAbc] (.ok statusOnlyBody)) ()).1 = true ∧
      (IsDegraded (sampleEnv none none none [secretAbc] (.ok statusOnlyBody)) ()).2.2 ≠
        none :=
  have h : StepFailure (sampleEnv none none none [secretAbc] (.ok statusOnlyBody)) () :=
    .arrayCount () (sampleKube [secretAbc]) "tok-abc" (sampleQuerier (.ok statusOnlyBody))
      statusOnlyBody noArray (.external "not an array") rfl rfl (by decide) rfl rfl
      rfl rfl
  ⟨h, IsDegraded_failsafe _ () h⟩

/-- C2 as stated fails: with one firing alert and every step succeeding, the
reason returned by `IsDegraded` is not `AlertsFiring`. -/
theorem IsDegraded_alerts_firing_counterexample :
    (1 : Int) > 0 ∧
      AllStepsSucceed (sampleEnv none none none [secretAbc] (.ok oneResultBody)) () 1 ∧
      ¬ ((IsDegraded (sampleEnv none none none [secretAbc] (.ok oneResultBody)) ()).1 = true ∧
        (IsDegraded (sampleEnv none none none [secretAbc] (.ok oneResultBody)) ()).2.1 =
          "AlertsFiring" ∧
        (IsDegraded (sampleEnv none none none [secretAbc] (.ok oneResultBody)) ()).2.2 ≠
          none) := by
  refine ⟨by decide, allStepsSucceed_sample oneResultBody 1 rfl, ?_⟩
  rw [IsDegraded_of_success _ () 1 (allStepsSucceed_sample oneResultBody 1 rfl)]
  simp

/-- One firing alert and two firing alerts give the same triple. -/
theorem IsDegraded_alerts_firing_witness :
    IsDegraded (sampleEnv none none none [secretAbc] (.ok oneResultBody)) () =
        (true, "MonitoringAlertsFiring",
          some (.fundamental "alerts around monitoring stack are firing")) ∧
      IsDegraded (sampleEnv none none none [secretAbc] (.ok twoResultBody)) () =
        (true, "MonitoringAlertsFiring",
          some (.fundamental "alerts around monitoring stack are firing")) :=
  ⟨IsDegraded_alerts_firing _ () 1 (by decide)
      (allStepsSucceed_sample oneResultBody 1 rfl),
    IsDegraded_alerts_firing _ () 2 (by decide)
      (allStepsSucceed_sample twoResultBody 2 rfl)⟩

/-- C3 fails on the code: a response body that is not JSON, and a JSON body
without a `data.result` array, both give a degraded result with an error and the
empty reason code. -/
theorem IsDegraded_empty_reason_with_error :
    IsDegraded (sampleEnv none none none [secretAbc] (.ok "Service Unavailable")) () =
        (true, "",
          some (.withMessage (.external "invalid character")
            "could not query for alerts firing")) ∧
      IsDegraded (sampleEnv none none none [secretAbc] (.ok statusOnlyBody)) () =
        (true, "",
          some (.withMessage (.external "not an array")
            "could not query for alerts firing")) :=
  ⟨by decide, by decide⟩

/-- The response with an empty result array gives the healthy triple. -/
theorem IsDegraded_healthy_witness :
    AllStepsSucceed (sampleEnv none none none [secretAbc] (.ok emptyResultBody)) () 0 ∧
      IsDegraded (sampleEnv none none none [secretAbc] (.ok emptyResultBody)) () =
        (false, "", none) :=
  ⟨allStepsSucceed_sample emptyResultBody 0 rfl,
    IsDegraded_healthy _ () (allStepsSucceed_sample emptyResultBody 0 rfl)⟩

/-- One cluster for each of the five stages, failing there and not before. -/
theorem IsDegraded_reason_of_first_failure_witness :
    (IsDegraded (sampleEnv (some (.external "no route API")) none none [secretAbc]
        (.ok emptyResultBody)) ()).2.1 = "OpenShiftRouteClientError" ∧
      (IsDegraded (sampleEnv none (some (.external "bad kubeconfig")) none [secretAbc]
        (.ok emptyResultBody)) ()).2.1 = "KubeConfigError" ∧
      (IsDegraded (sampleEnv none none none [secretXyz]
        (.ok emptyResultBody)) ()).2.1 = "ServiceAccountTokenMissing" ∧
      (IsDegraded (sampleEnv none none (some (.external "no such route")) [secretAbc]
        (.ok emptyResultBody)) ()).2.1 = "ThanosQuerierClientError" ∧
      (IsDegraded (sampleEnv none none none [secretAbc]
        (.error (.external "connection refused"))) ()).2.1 = "ThanosQuerierQueryFailed" :=
  ⟨((IsDegraded_reason_of_first_failure
        (sampleEnv (some (.external "no route API")) none none [secretAbc]
          (.ok emptyResultBody)) ()).1 (.external "no route API") rfl).2,
    ((IsDegraded_reason_of_first_failure
        (sampleEnv none (some (.external "bad kubeconfig")) none [secretAbc]
          (.ok emptyResultBody)) ()).2.1 () (.external "bad kubeconfig") rfl rfl).2,
    ((IsDegraded_reason_of_first_failure
        (sampleEnv none none none [secretXyz] (.ok emptyResultBody)) ()).2.2.1 ()
        (sampleKube [secretXyz]) ""
        (.fundamental
          "cannot find token for openshift-monitoring/cluster-monitoring-operator service account")
        rfl rfl (by decide)).2,
    ((IsDegraded_reason_of_first_failure
        (sampleEnv none none (some (.external "no such route")) [secretAbc]
          (.ok emptyResultBody)) ()).2.2.2.1 () (sampleKube [secretAbc]) "tok-abc"
        (.external "no such route") rfl rfl (by decide) rfl).2,
    ((IsDegraded_reason_of_first_failure
        (sampleEnv none none none [secretAbc]
          (.error (.external "connection refused"))) ()).2.2.2.2 ()
        (sampleKube [secretAbc]) "tok-abc"
        (sampleQuerier (.error (.external "connection refused")))
        (.external "connection refused") rfl rfl (by decide) rfl rfl).2⟩

end Status
